import Mathlib

/-!
Verification development for the "ishbor" job-listing moderation bot
(a Telegram bot: `database.py`, `main.py`, `admin.py`, `utils.py`).

The data layer and the handler functions are embedded shallowly:

* persisted state is a `DB` value holding the user and ad tables;
* each database operation (`update_ad_status`, `update_ad`,
  `update_user_role`, `delete_ad`, `create_ad`, `cleanup_old_ads`,
  `get_user_ads_today`, ...) becomes a pure function on `DB`;
* each bot handler (`approve_ad_callback`, `reject_ad_callback`,
  `create_ad_handler`, `process_title`, `process_edit_title`,
  `handle_confirm_delete`, `handle_remove_admin`,
  `handle_confirm_broadcast`, ...) becomes a function returning the new
  `DB` together with a list of `Effect`s describing the outbound
  messages it attempts (message text formatting is elided: an effect
  records only which kind of send happens and to whom);
* timestamps are seconds since the epoch as `Nat` (`datetime.utcnow()`
  becomes a `now : Nat` parameter); a UTC calendar day is `t / 86400`;
* the in-memory rate limiter timestamps are `Int`, since the Python
  cutoff `now - timedelta(seconds=window)` may precede the epoch;
* Python truthiness of optional arguments (`if approved_by:`,
  `if title:`) is modelled explicitly (`optIntTruthy`, `optStrTruthy`):
  `None`, `0` and the empty string are falsy.

SQLAlchemy row updates mutate the single row found by primary key;
since ids are unique this is embedded as a map over the table that
rewrites exactly the rows with the matching id.
-/

/-- Row of the `users` table (`database.py`, class `User`). -/
structure UserRec where
  telegram_id : Nat
  full_name : String
  role : String
  is_blocked : Bool
  deriving DecidableEq

/-- Row of the `ads` table (`database.py`, class `Ad`). -/
structure AdRec where
  id : Nat
  user_id : Nat
  title : String
  description : String
  category : String
  contact : String
  status : String
  created_at : Nat
  expires_at : Nat
  approved_by : Option Nat
  approved_at : Option Nat
  deriving DecidableEq

/-- The persisted store: the two tables the claims touch, plus the
autoincrement counter for `ads.id`. -/
structure DB where
  users : List UserRec
  ads : List AdRec
  nextAdId : Nat
  deriving DecidableEq

/-- Python truthiness of an optional integer: `None` and `0` are falsy. -/
def optIntTruthy : Option Nat → Bool
  | none => false
  | some n => n ≠ 0

/-- Python truthiness of an optional string: `None` and `""` are falsy. -/
def optStrTruthy : Option String → Bool
  | none => false
  | some s => s ≠ ""

/-- `Database.get_user`: select the user row by unique `telegram_id`. -/
def get_user (db : DB) (tg : Nat) : Option UserRec :=
  db.users.find? (fun u => u.telegram_id = tg)

/-- `Database.get_ad`: select the ad row by unique primary key. -/
def get_ad (db : DB) (adId : Nat) : Option AdRec :=
  db.ads.find? (fun a => a.id = adId)

/-- The row rewrite performed by `Database.update_ad_status` on the row
with the matching id: set `status`; when the new status is `approved`
and the passed approver is truthy, also set `approved_by` and
`approved_at` (to the current time). -/
def applyStatus (adId : Nat) (status : String) (approvedBy : Option Nat)
    (now : Nat) (a : AdRec) : AdRec :=
  if a.id = adId then
    let a1 := { a with status := status }
    if status = "approved" ∧ optIntTruthy approvedBy then
      { a1 with approved_by := approvedBy, approved_at := some now }
    else a1
  else a

/-- `Database.update_ad_status(ad_id, status, approved_by=None)`:
find the ad; if present rewrite it and commit (`true`), else `false`. -/
def update_ad_status (db : DB) (adId : Nat) (status : String)
    (approvedBy : Option Nat) (now : Nat) : DB × Bool :=
  match get_ad db adId with
  | none => (db, false)
  | some _ =>
      ({ db with ads := db.ads.map (applyStatus adId status approvedBy now) }, true)

/-- The row rewrite performed by `Database.update_ad` on the row with
the matching id: overwrite each of title/description/contact that was
passed truthy (`if title: ...` etc.). -/
def applyEdit (adId : Nat) (title description contact : Option String)
    (a : AdRec) : AdRec :=
  if a.id = adId then
    let a1 := match title with
      | some t => if t ≠ "" then { a with title := t } else a
      | none => a
    let a2 := match description with
      | some d => if d ≠ "" then { a1 with description := d } else a1
      | none => a1
    match contact with
      | some c => if c ≠ "" then { a2 with contact := c } else a2
      | none => a2
  else a

/-- `Database.update_ad(ad_id, title=None, description=None, contact=None)`. -/
def update_ad (db : DB) (adId : Nat)
    (title description contact : Option String) : DB × Bool :=
  match get_ad db adId with
  | none => (db, false)
  | some _ =>
      ({ db with ads := db.ads.map (applyEdit adId title description contact) }, true)

/-- The row rewrite performed by `Database.update_user_role` on the
user row with the matching `telegram_id`. -/
def applyRole (tg : Nat) (role : String) (u : UserRec) : UserRec :=
  if u.telegram_id = tg then { u with role := role } else u

/-- `Database.update_user_role(telegram_id, role)`: find the user; if
present set the role and commit (`true`), else `false`. -/
def update_user_role (db : DB) (tg : Nat) (role : String) : DB × Bool :=
  match get_user db tg with
  | none => (db, false)
  | some _ => ({ db with users := db.users.map (applyRole tg role) }, true)

/-- `Database.delete_ad(ad_id)`: find the ad; if present delete the row
and commit (`true`), else `false`. -/
def delete_ad (db : DB) (adId : Nat) : DB × Bool :=
  match get_ad db adId with
  | none => (db, false)
  | some _ => ({ db with ads := db.ads.filter (fun a => a.id ≠ adId) }, true)

/-- Seconds per UTC calendar day. -/
def secondsPerDay : Nat := 86400

/-- The UTC calendar day of a timestamp (`func.date` / `.date()`). -/
def dayOf (t : Nat) : Nat := t / secondsPerDay

/-- `Database.get_user_ads_today(telegram_id)`: the ads of that user
whose creation date equals the current UTC date. -/
def get_user_ads_today (db : DB) (tg : Nat) (now : Nat) : List AdRec :=
  db.ads.filter (fun a => a.user_id = tg ∧ dayOf a.created_at = dayOf now)

/-- Retention period of an ad, 7 days (`expires_at` column default
`datetime.utcnow() + timedelta(days=7)`). -/
def adExpirySeconds : Nat := 7 * secondsPerDay

/-- `Database.create_ad(user_id, title, description, category, contact,
status='pending')`: insert a fresh row; `created_at` defaults to now and
`expires_at` to now plus 7 days; returns the new id. -/
def create_ad (db : DB) (userId : Nat)
    (title description category contact status : String) (now : Nat) :
    DB × Nat :=
  let ad : AdRec :=
    { id := db.nextAdId, user_id := userId, title := title,
      description := description, category := category, contact := contact,
      status := status, created_at := now,
      expires_at := now + adExpirySeconds,
      approved_by := none, approved_at := none }
  ({ db with ads := db.ads ++ [ad], nextAdId := db.nextAdId + 1 }, db.nextAdId)

/-- `Database.cleanup_old_ads`: computes `week_ago = utcnow() - 7 days`
and deletes every ad with `expires_at < week_ago`, returning how many
were deleted.  (Note the comparison point: it is 7 days before the
sweep time, not the sweep time itself.  `Nat` subtraction truncates at
zero, matching real timestamps, which always exceed 7 days.) -/
def cleanup_old_ads (db : DB) (now : Nat) : DB × Nat :=
  let weekAgo := now - adExpirySeconds
  let old := db.ads.filter (fun a => a.expires_at < weekAgo)
  ({ db with ads := db.ads.filter (fun a => ¬ a.expires_at < weekAgo) }, old.length)

/-- The outbound sends and UI responses a handler attempts.  Message
text formatting is elided; each constructor records the kind of send
and, where relevant, the target. -/
inductive Effect where
  | alertNoRights
  | alertNotFound
  | alertSuperadminRefused
  | alertError
  | answerError
  | answerValidationError
  | answerDailyLimit
  | answerSuccess
  | promptNext
  | showConfirmKeyboard
  | publishToChannel (adId : Nat)
  | notifyOwner (userId : Nat)
  | notifyTarget (userId : Nat)
  | notifyAdmins (adId : Nat)
  deriving DecidableEq

/-- `AdminHandlers.is_admin`: the user exists and has role `admin` or
`superadmin` (the same check is inlined in the `main.py` handlers). -/
def is_admin (db : DB) (uid : Nat) : Bool :=
  match get_user db uid with
  | some u => u.role = "admin" ∨ u.role = "superadmin"
  | none => false

/-- `AdminHandlers.is_superadmin`: the user exists and has role
`superadmin`. -/
def is_superadmin (db : DB) (uid : Nat) : Bool :=
  match get_user db uid with
  | some u => u.role = "superadmin"
  | none => false

/-- `approve_ad_callback` (`main.py`): role check, ad lookup, then
`update_ad_status(ad_id, 'approved')` — note: no approver argument is
passed — followed by one `post_ad_to_channel` call and an owner
notification. -/
def approve_ad_callback (db : DB) (caller adId now : Nat) : DB × List Effect :=
  if ¬ is_admin db caller then (db, [.alertNoRights])
  else match get_ad db adId with
    | none => (db, [.alertNotFound])
    | some ad =>
        let db1 := (update_ad_status db adId "approved" none now).1
        (db1, [.publishToChannel adId, .notifyOwner ad.user_id])

/-- `reject_ad_callback` (`main.py`): role check, ad lookup, then
`update_ad_status(ad_id, 'rejected')` and an owner notification. -/
def reject_ad_callback (db : DB) (caller adId now : Nat) : DB × List Effect :=
  if ¬ is_admin db caller then (db, [.alertNoRights])
  else match get_ad db adId with
    | none => (db, [.alertNotFound])
    | some ad =>
        let db1 := (update_ad_status db adId "rejected" none now).1
        (db1, [.notifyOwner ad.user_id])

/-- The aiogram FSM states of the submission wizard (`AdCreation`);
`idle` is the absence of a state. -/
inductive WState where
  | idle
  | waitingTitle
  | waitingDescription
  | waitingContact
  | waitingCategory
  deriving DecidableEq

/-- Per-user wizard value: current FSM state plus the collected data
(`state.update_data` fields). -/
structure Wizard where
  state : WState
  title : Option String
  description : Option String
  contact : Option String
  deriving DecidableEq

/-- The empty wizard (no state set, no data). -/
def Wizard.clear : Wizard :=
  { state := .idle, title := none, description := none, contact := none }

/-- `create_ad_handler` (`main.py`): if the user already has 3 or more
ads created today, answer with the daily-limit message and stay put;
otherwise enter `waiting_for_title`.  (The handler also reads the user
row, unused.) -/
def create_ad_handler (db : DB) (uid : Nat) (w : Wizard) (now : Nat) :
    DB × Wizard × List Effect :=
  let todayAds := get_user_ads_today db uid now
  if todayAds.length ≥ 3 then (db, w, [.answerDailyLimit])
  else (db, { w with state := .waitingTitle }, [.promptNext])

/-- `process_title` (`main.py`): length must be in [5,100], otherwise
re-prompt with the wizard unchanged; on success record the title and
move to `waiting_for_description`. -/
def process_title (w : Wizard) (text : String) : Wizard × List Effect :=
  if text.length < 5 ∨ text.length > 100 then (w, [.answerValidationError])
  else ({ w with title := some text, state := .waitingDescription }, [.promptNext])

/-- `process_description` (`main.py`): length in [10,1000]. -/
def process_description (w : Wizard) (text : String) : Wizard × List Effect :=
  if text.length < 10 ∨ text.length > 1000 then (w, [.answerValidationError])
  else ({ w with description := some text, state := .waitingContact }, [.promptNext])

/-- `process_contact` (`main.py`): length in [5,50]. -/
def process_contact (w : Wizard) (text : String) : Wizard × List Effect :=
  if text.length < 5 ∨ text.length > 50 then (w, [.answerValidationError])
  else ({ w with contact := some text, state := .waitingCategory }, [.promptNext])

/-- `process_category` (`main.py`): create the ad from the collected
data with status `pending`, clear the wizard, notify the admins.
Returns `none` where the Python code would raise a `KeyError` on
missing collected fields. -/
def process_category (db : DB) (uid : Nat) (w : Wizard) (category : String)
    (now : Nat) : Option (DB × Wizard × List Effect) :=
  match w.title, w.description, w.contact with
  | some t, some d, some c =>
      let r := create_ad db uid t d category c "pending" now
      some (r.1, Wizard.clear, [.notifyAdmins r.2])
  | _, _, _ => none

/-- `AdminHandlers.process_edit_title`: role check (silent return when
it fails), read the target ad id from the FSM data, strip the new
title, check length [5,100] (error reply, state kept), else
`update_ad` and notify the owner, clearing the state.  The returned
`Bool` is whether the FSM state was cleared. -/
def process_edit_title (db : DB) (caller : Nat) (editAdId : Option Nat)
    (text : String) : DB × List Effect × Bool :=
  if ¬ is_admin db caller then (db, [], false)
  else match editAdId with
    | none => (db, [.answerError], true)
    | some adId =>
        let newTitle := text.trim
        if newTitle.length < 5 ∨ newTitle.length > 100 then
          (db, [.answerValidationError], false)
        else
          let r := update_ad db adId (some newTitle) none none
          if r.2 then
            match get_ad r.1 adId with
            | some ad => (r.1, [.answerSuccess, .notifyOwner ad.user_id], true)
            | none => (r.1, [.answerSuccess], true)
          else (r.1, [.answerError], true)

/-- `AdminHandlers.handle_delete_ad`: role check, ad lookup, then only
shows the confirmation keyboard — no mutation. -/
def handle_delete_ad (db : DB) (caller adId : Nat) : DB × List Effect :=
  if ¬ is_admin db caller then (db, [.alertNoRights])
  else match get_ad db adId with
    | none => (db, [.alertNotFound])
    | some _ => (db, [.showConfirmKeyboard])

/-- `AdminHandlers.handle_confirm_delete`: the source performs NO role
check here; it looks the ad up and deletes it, notifying the owner. -/
def handle_confirm_delete (db : DB) (_caller adId : Nat) : DB × List Effect :=
  match get_ad db adId with
  | none => (db, [.alertNotFound])
  | some ad =>
      let r := delete_ad db adId
      if r.2 then (r.1, [.notifyOwner ad.user_id]) else (r.1, [.alertError])

/-- `AdminHandlers.handle_add_admin`: superadmin check, then only
prompts for the target id — no mutation. -/
def handle_add_admin (db : DB) (caller : Nat) : DB × List Effect :=
  if ¬ is_superadmin db caller then (db, [.alertNoRights])
  else (db, [.promptNext])

/-- `AdminHandlers.process_new_admin_id`: parse the id, require the
target to exist and not already be admin/superadmin, then promote to
`admin` and notify.  (The source performs no role re-check in this
step; it is reachable only from `handle_add_admin`.) -/
def process_new_admin_id (db : DB) (_caller : Nat) (text : String) :
    DB × List Effect :=
  match text.trim.toNat? with
  | none => (db, [.answerError])
  | some adminId =>
      match get_user db adminId with
      | none => (db, [.answerError])
      | some u =>
          if u.role = "admin" ∨ u.role = "superadmin" then (db, [.answerError])
          else
            let r := update_user_role db adminId "admin"
            if r.2 then (r.1, [.answerSuccess, .notifyTarget adminId])
            else (r.1, [.answerError])

/-- `AdminHandlers.handle_remove_admin`: superadmin check, target
lookup, refuse when the target is a superadmin, otherwise set the
target role to `user` and notify.  Note: the source accepts any
existing non-superadmin target, not only targets with role `admin`. -/
def handle_remove_admin (db : DB) (caller target : Nat) : DB × List Effect :=
  if ¬ is_superadmin db caller then (db, [.alertNoRights])
  else match get_user db target with
    | none => (db, [.alertNotFound])
    | some u =>
        if u.role = "superadmin" then (db, [.alertSuperadminRefused])
        else
          let r := update_user_role db target "user"
          if r.2 then (r.1, [.answerSuccess, .notifyTarget target])
          else (r.1, [.alertError])

/-- `AdminHandlers.handle_broadcast_start`: superadmin check, then only
prompts for the message — no mutation. -/
def handle_broadcast_start (db : DB) (caller : Nat) : DB × List Effect :=
  if ¬ is_superadmin db caller then (db, [.alertNoRights])
  else (db, [.promptNext])

/-- Outcome of one `bot.send_message` call during the broadcast:
either it succeeds or it raises an exception carrying a message. -/
inductive SendOutcome where
  | ok
  | err (msg : String)
  deriving DecidableEq

/-- Does `needle` lead `hay` (character-prefix test, written out to
model the Python substring operator)? -/
def leadsChars : List Char → List Char → Bool
  | [], _ => true
  | _ :: _, [] => false
  | a :: as, b :: bs => a = b && leadsChars as bs

/-- Does `hay` contain `needle` as a contiguous run (Python `in`)? -/
def containsChars (needle : List Char) : List Char → Bool
  | [] => leadsChars needle []
  | c :: t => leadsChars needle (c :: t) || containsChars needle t

/-- The broadcast suppression test: Python
`"bot was blocked" in str(e).lower()`. -/
def isBlockedErr (msg : String) : Bool :=
  containsChars "bot was blocked".data msg.toLower.data

/-- Running tally of `handle_confirm_broadcast`: success and failure
counters, the recipients attempted in order, and the recipients whose
failure was logged. -/
structure BroadcastTally where
  success : Nat
  failed : Nat
  attempted : List Nat
  logged : List Nat
  deriving DecidableEq

/-- One iteration of the broadcast loop body: try the send; on success
bump `success_count`; on an exception bump `failed_count` and log it
unless the message contains "bot was blocked". -/
def broadcastStep (send : Nat → SendOutcome) (t : BroadcastTally) (u : Nat) :
    BroadcastTally :=
  match send u with
  | .ok =>
      { t with success := t.success + 1, attempted := t.attempted ++ [u] }
  | .err e =>
      { t with failed := t.failed + 1, attempted := t.attempted ++ [u],
               logged := if isBlockedErr e then t.logged else t.logged ++ [u] }

/-- `AdminHandlers.handle_confirm_broadcast`: iterate the captured user
list, attempting each send in turn; no exception stops the loop. -/
def handle_confirm_broadcast (users : List Nat) (send : Nat → SendOutcome) :
    BroadcastTally :=
  users.foldl (broadcastStep send)
    { success := 0, failed := 0, attempted := [], logged := [] }

/-- `RateLimiter.is_rate_limited(user_id, max_actions=10,
time_window=60)` for one user key: drop recorded timestamps not newer
than `now - time_window`, report limited (recording nothing) when the
remaining count meets the maximum, else record `now` and report
allowed.  Returns (limited?, new timestamp list). -/
def is_rate_limited (st : List Int) (maxActions : Nat) (timeWindow now : Int) :
    Bool × List Int :=
  let cutoff := now - timeWindow
  let pruned := st.filter (fun t => cutoff < t)
  if pruned.length ≥ maxActions then (true, pruned)
  else (false, pruned ++ [now])

/-- Iterate `is_rate_limited` over a sequence of action times,
returning the final timestamp list and the per-action verdicts. -/
def runLimiter (maxActions : Nat) (timeWindow : Int) :
    List Int → List Int → List Int × List Bool
  | st, [] => (st, [])
  | st, now :: rest =>
      let r := is_rate_limited st maxActions timeWindow now
      let r2 := runLimiter maxActions timeWindow r.2 rest
      (r2.1, r.1 :: r2.2)

/-- The operations of the system that touch the persisted store (the
handlers embedded above, viewed as store transformers). -/
inductive Op where
  | approve (caller adId now : Nat)
  | reject (caller adId now : Nat)
  | editTitle (caller : Nat) (editAdId : Option Nat) (text : String)
  | deleteStart (caller adId : Nat)
  | confirmDelete (caller adId : Nat)
  | promote (caller : Nat) (text : String)
  | demote (caller target : Nat)
  | submitAd (uid : Nat) (title description category contact : String) (now : Nat)
  | sweep (now : Nat)
  deriving DecidableEq

/-- The store transition of each operation (`process_category` passes
status `pending` to `create_ad`, so `submitAd` does too). -/
def step (db : DB) : Op → DB
  | .approve c a n => (approve_ad_callback db c a n).1
  | .reject c a n => (reject_ad_callback db c a n).1
  | .editTitle c e t => (process_edit_title db c e t).1
  | .deleteStart c a => (handle_delete_ad db c a).1
  | .confirmDelete c a => (handle_confirm_delete db c a).1
  | .promote c t => (process_new_admin_id db c t).1
  | .demote c t => (handle_remove_admin db c t).1
  | .submitAd u t d cat con n => (create_ad db u t d cat con "pending" n).1
  | .sweep n => (cleanup_old_ads db n).1

/-! ### Concrete sample data used by counterexamples and witnesses -/

/-- A sample admin user. -/
def adminA : UserRec :=
  { telegram_id := 1, full_name := "Alice", role := "admin", is_blocked := false }

/-- A sample superadmin user. -/
def superS : UserRec :=
  { telegram_id := 3, full_name := "Sam", role := "superadmin", is_blocked := false }

/-- A sample plain user. -/
def plainP : UserRec :=
  { telegram_id := 2, full_name := "Pat", role := "user", is_blocked := false }

/-- A sample ad with valid field lengths, given id, owner, status and
creation time; `expires_at` follows the column default (creation plus
7 days). -/
def mkAd (i uid : Nat) (st : String) (created : Nat) : AdRec :=
  { id := i, user_id := uid, title := "Python dasturchi",
    description := "Work in an office, good salary",
    category := "IT", contact := "+998901234567", status := st,
    created_at := created, expires_at := created + adExpirySeconds,
    approved_by := none, approved_at := none }

/-! ### Counterexamples and code evaluations at failing inputs -/

/-- C1 counterexample: an ad whose status is already `approved` is
moved to `rejected` by an admin reject, because `reject_ad_callback`
never checks the current status.  This refutes, at a concrete input,
the claim that an approved listing is never moved to rejected by any
sequence of operations. -/
theorem C1_counterexample :
    get_ad { users := [adminA], ads := [mkAd 1 2 "approved" 0], nextAdId := 2 } 1 =
      some (mkAd 1 2 "approved" 0) ∧
    (step { users := [adminA], ads := [mkAd 1 2 "approved" 0], nextAdId := 2 }
        (Op.reject 1 1 5)).ads = [mkAd 1 2 "rejected" 0] := by decide

/-- C2 evaluation at the failing input: admin 1 approves pending ad 1.
Afterwards the status is `approved` and exactly one publish effect is
issued, but `approved_by` and `approved_at` are still null, because
`approve_ad_callback` calls `update_ad_status` without an approver. -/
theorem C2_code_eval :
    approve_ad_callback
        { users := [adminA], ads := [mkAd 1 2 "pending" 0], nextAdId := 2 } 1 1 100 =
      ({ users := [adminA], ads := [mkAd 1 2 "approved" 0], nextAdId := 2 },
       [Effect.publishToChannel 1, Effect.notifyOwner 2]) ∧
    (mkAd 1 2 "approved" 0).status = "approved" ∧
    (mkAd 1 2 "approved" 0).approved_by = none ∧
    (mkAd 1 2 "approved" 0).approved_at = none := by decide

/-- C3 evaluation at the failing input: at sweep time 1000000 the ad
has `expires_at = 913600`, one day in the past, yet the sweep deletes
nothing, because `cleanup_old_ads` only deletes ads whose expiry lies
more than 7 days in the past. -/
theorem C3_code_eval :
    (mkAd 1 2 "pending" 308800).expires_at = 913600 ∧ (913600 : Nat) < 1000000 ∧
    cleanup_old_ads
        { users := [], ads := [mkAd 1 2 "pending" 308800], nextAdId := 2 } 1000000 =
      ({ users := [], ads := [mkAd 1 2 "pending" 308800], nextAdId := 2 }, 0) := by decide

/-- C4 counterexample: caller 2 has role `user`, yet the delete
confirmation step removes the listing and reports no authorization
error — `handle_confirm_delete` performs no role check. -/
theorem C4_counterexample :
    is_admin { users := [plainP], ads := [mkAd 1 2 "pending" 0], nextAdId := 2 } 2 = false ∧
    handle_confirm_delete
        { users := [plainP], ads := [mkAd 1 2 "pending" 0], nextAdId := 2 } 2 1 =
      ({ users := [plainP], ads := [], nextAdId := 2 }, [Effect.notifyOwner 2]) := by decide

/-- C8 counterexample: superadmin 3 runs the demote operation on target
2, whose role is `user` (not `admin`); the operation succeeds (success
answer plus target notification) even though the claim says demotion
succeeds only when the target role is `admin`. -/
theorem C8_counterexample :
    (get_user { users := [superS, plainP], ads := [], nextAdId := 1 } 2).map UserRec.role =
      some "user" ∧
    handle_remove_admin { users := [superS, plainP], ads := [], nextAdId := 1 } 3 2 =
      ({ users := [superS, plainP], ads := [], nextAdId := 1 },
       [Effect.answerSuccess, Effect.notifyTarget 2]) := by decide

/-! ### C5: daily submission quota -/

/-- C5: when the user already has at least 3 ads created on the current
UTC calendar day, the create-listing handler refuses: it answers with
the daily-limit message, the wizard value is returned unchanged (stays
idle), the store is unchanged, and hence the count of that day stays
exactly as it was. -/
theorem C5_daily_limit (db : DB) (uid : Nat) (w : Wizard) (now : Nat)
    (h : 3 ≤ (get_user_ads_today db uid now).length) :
    create_ad_handler db uid w now = (db, w, [Effect.answerDailyLimit]) ∧
    (get_user_ads_today (create_ad_handler db uid w now).1 uid now).length =
      (get_user_ads_today db uid now).length := by
  have h2 : (get_user_ads_today db uid now).length ≥ 3 := h
  constructor
  · unfold create_ad_handler
    rw [if_pos h2]
  · unfold create_ad_handler
    rw [if_pos h2]

/-- C5 witness: a user with exactly 3 ads created today is refused. -/
theorem C5_witness :
    3 ≤ (get_user_ads_today
      { users := [plainP],
        ads := [mkAd 1 2 "pending" 10, mkAd 2 2 "pending" 20, mkAd 3 2 "pending" 30],
        nextAdId := 4 } 2 40).length ∧
    create_ad_handler
      { users := [plainP],
        ads := [mkAd 1 2 "pending" 10, mkAd 2 2 "pending" 20, mkAd 3 2 "pending" 30],
        nextAdId := 4 } 2 Wizard.clear 40 =
      ({ users := [plainP],
         ads := [mkAd 1 2 "pending" 10, mkAd 2 2 "pending" 20, mkAd 3 2 "pending" 30],
         nextAdId := 4 }, Wizard.clear, [Effect.answerDailyLimit]) :=
  ⟨by decide,
   (C5_daily_limit
      { users := [plainP],
        ads := [mkAd 1 2 "pending" 10, mkAd 2 2 "pending" 20, mkAd 3 2 "pending" 30],
        nextAdId := 4 } 2 Wizard.clear 40 (by decide)).1⟩

/-! ### C6: sliding-window rate limiter -/

/-- C6: the rate limiter first prunes timestamps at or before
`now - window`; when the pruned count already meets the maximum it
reports limited and records nothing, otherwise it records the action
and reports allowed.  In particular with max 10 per 60-second window,
the 11th action inside the window is limited, and once the window has
elapsed the next action is allowed again. -/
theorem C6_rate_limiter (st : List Int) (maxA : Nat) (w now : Int) :
    (maxA ≤ (st.filter (fun t => now - w < t)).length →
      is_rate_limited st maxA w now = (true, st.filter (fun t => now - w < t))) ∧
    ((st.filter (fun t => now - w < t)).length < maxA →
      is_rate_limited st maxA w now =
        (false, st.filter (fun t => now - w < t) ++ [now])) ∧
    (runLimiter 10 60 [] (List.replicate 11 0)).2 =
      List.replicate 10 false ++ [true] ∧
    (runLimiter 10 60 [] (List.replicate 11 0 ++ [61])).2 =
      List.replicate 10 false ++ [true, false] := by
  refine ⟨?_, ?_, by decide, by decide⟩
  · intro h
    simp only [is_rate_limited]
    split
    · rfl
    · next hc => exact absurd h hc
  · intro h
    simp only [is_rate_limited]
    split
    · next hc => exact absurd hc (by omega)
    · rfl

/-- C6 witness: with maximum 2, two recorded in-window actions make the
next check limited and nothing new is recorded. -/
theorem C6_witness :
    2 ≤ (([0, 0] : List Int).filter (fun t => (30 : Int) - 60 < t)).length ∧
    is_rate_limited [0, 0] 2 60 30 =
      (true, ([0, 0] : List Int).filter (fun t => (30 : Int) - 60 < t)) :=
  ⟨by decide, (C6_rate_limiter [0, 0] 2 60 30).1 (by decide)⟩

/-! ### C7: length validation leaves state unchanged -/

/-- C7: an input whose length is outside the bounds of the field being
collected (title [5,100], description [10,1000], contact [5,50]) makes
the wizard step reply with a validation error and leave the wizard
unchanged; an admin title edit whose new value (the stripped input the
handler validates and would persist) is outside [5,100] replies with a
validation error, keeps the FSM state and leaves the store unchanged. -/
theorem C7_validation (w : Wizard) (db : DB) (caller adId : Nat) (text : String) :
    (¬ (5 ≤ text.length ∧ text.length ≤ 100) →
      process_title w text = (w, [Effect.answerValidationError])) ∧
    (¬ (10 ≤ text.length ∧ text.length ≤ 1000) →
      process_description w text = (w, [Effect.answerValidationError])) ∧
    (¬ (5 ≤ text.length ∧ text.length ≤ 50) →
      process_contact w text = (w, [Effect.answerValidationError])) ∧
    (is_admin db caller = true →
      ¬ (5 ≤ text.trim.length ∧ text.trim.length ≤ 100) →
      process_edit_title db caller (some adId) text =
        (db, [Effect.answerValidationError], false)) := by
  refine ⟨?_, ?_, ?_, ?_⟩
  · intro h
    unfold process_title
    rw [if_pos (by omega)]
  · intro h
    unfold process_description
    rw [if_pos (by omega)]
  · intro h
    unfold process_contact
    rw [if_pos (by omega)]
  · intro hA h
    have hcond : text.trim.length < 5 ∨ text.trim.length > 100 := by omega
    simp only [process_edit_title, hA]
    rw [if_neg (by simp)]
    split
    · rfl
    · next hc => exact absurd hcond hc

/-- C7 witness: the 3-character title "abc" is rejected by the wizard
title step with the wizard unchanged. -/
theorem C7_witness :
    ¬ (5 ≤ ("abc" : String).length ∧ ("abc" : String).length ≤ 100) ∧
    process_title Wizard.clear "abc" = (Wizard.clear, [Effect.answerValidationError]) :=
  ⟨by decide,
   (C7_validation Wizard.clear { users := [], ads := [], nextAdId := 1 } 0 0 "abc").1
     (by decide)⟩

/-! ### C9: broadcast fan-out -/

/-- Did the send succeed (no exception)? -/
def isOk : SendOutcome → Bool
  | .ok => true
  | .err _ => false

/-- Is this outcome a failure that the broadcast loop logs (any error
whose message does not contain "bot was blocked")? -/
def isLoggedFail : SendOutcome → Bool
  | .ok => false
  | .err e => !(isBlockedErr e)

/-- Full characterization of the broadcast loop fold from an arbitrary
starting tally. -/
theorem broadcast_foldl_spec (send : Nat → SendOutcome) (users : List Nat)
    (t : BroadcastTally) :
    users.foldl (broadcastStep send) t =
      { success := t.success + (users.filter (fun u => isOk (send u))).length,
        failed := t.failed + (users.filter (fun u => !(isOk (send u)))).length,
        attempted := t.attempted ++ users,
        logged := t.logged ++ users.filter (fun u => isLoggedFail (send u)) } := by
  induction users generalizing t with
  | nil => simp
  | cons u us ih =>
      rw [List.foldl_cons, ih]
      cases hs : send u with
      | ok =>
          simp only [broadcastStep, hs, List.filter_cons, isOk, isLoggedFail,
            Bool.not_true, if_true, if_false, cond_true, cond_false]
          simp [List.append_assoc]
          omega
      | err e =>
          by_cases hb : isBlockedErr e = true
          · simp only [broadcastStep, hs, List.filter_cons, isOk, isLoggedFail, hb,
              Bool.not_false, Bool.not_true, if_true, if_false]
            simp [List.append_assoc, hb]
            omega
          · have hb2 : isBlockedErr e = false := by simpa using hb
            simp only [broadcastStep, hs, List.filter_cons, isOk, isLoggedFail, hb2,
              Bool.not_false, Bool.not_true, if_true, if_false]
            simp [List.append_assoc, hb2]
            omega

/-- C9: during a broadcast over the captured user list, every user is
attempted exactly once and in order, the per-recipient results are
tallied (successes plus failures cover the whole list), and the logged
failures are exactly the failing recipients whose exception message
does not contain "bot was blocked"; in particular no failure stops the
remaining sends. -/
theorem C9_broadcast (users : List Nat) (send : Nat → SendOutcome) :
    (handle_confirm_broadcast users send).attempted = users ∧
    (handle_confirm_broadcast users send).success =
      (users.filter (fun u => isOk (send u))).length ∧
    (handle_confirm_broadcast users send).failed =
      (users.filter (fun u => !(isOk (send u)))).length ∧
    (handle_confirm_broadcast users send).success +
      (handle_confirm_broadcast users send).failed = users.length ∧
    (handle_confirm_broadcast users send).logged =
      users.filter (fun u => isLoggedFail (send u)) := by
  unfold handle_confirm_broadcast
  rw [broadcast_foldl_spec]
  refine ⟨by simp, by simp, by simp, ?_, by simp⟩
  simp only [Nat.zero_add, List.nil_append]
  rw [← List.length_append]
  exact (List.filter_append_perm (fun u => isOk (send u)) users).length_eq

/-! ### C10: frame conditions of a status update -/

/-- C10: a status update leaves every ad field other than `status`,
`approved_by` and `approved_at` unchanged (and rows with another id
fully unchanged); the approval fields can change only when the new
status is `approved` and a truthy (hence non-null) approver was
supplied; in particular a `rejected` update never touches them. -/
theorem C10_frame (db : DB) (adId : Nat) (status : String) (ab : Option Nat)
    (now : Nat) (a' : AdRec)
    (h : a' ∈ (update_ad_status db adId status ab now).1.ads) :
    ∃ a ∈ db.ads,
      a'.id = a.id ∧ a'.user_id = a.user_id ∧ a'.title = a.title ∧
      a'.description = a.description ∧ a'.category = a.category ∧
      a'.contact = a.contact ∧ a'.created_at = a.created_at ∧
      a'.expires_at = a.expires_at ∧
      (a.id ≠ adId → a' = a) ∧
      (a.id = adId → a'.status = status) ∧
      ((status = "approved" ∧ ∃ k, ab = some k ∧ k ≠ 0) ∨
        (a'.approved_by = a.approved_by ∧ a'.approved_at = a.approved_at)) ∧
      (status = "rejected" →
        a'.approved_by = a.approved_by ∧ a'.approved_at = a.approved_at) := by
  unfold update_ad_status at h
  cases hga : get_ad db adId with
  | none =>
      rw [hga] at h
      have h0 : db.ads.find? (fun a => a.id = adId) = none := by
        simpa [get_ad] using hga
      have hnone : ∀ x ∈ db.ads, ¬ x.id = adId := by
        intro x hx
        have := List.find?_eq_none.mp h0 x hx
        simpa using this
      exact ⟨a', h, rfl, rfl, rfl, rfl, rfl, rfl, rfl, rfl, fun _ => rfl,
        fun hid => absurd hid (hnone a' h), Or.inr ⟨rfl, rfl⟩, fun _ => ⟨rfl, rfl⟩⟩
  | some ad =>
      rw [hga] at h
      simp only [List.mem_map] at h
      obtain ⟨a, ha, rfl⟩ := h
      by_cases hid : a.id = adId
      · by_cases hc : status = "approved" ∧ optIntTruthy ab = true
        · obtain ⟨k, hk, hk0⟩ : ∃ k, ab = some k ∧ k ≠ 0 := by
            rcases hab : ab with _ | k
            · rw [hab] at hc
              simp [optIntTruthy] at hc
            · rw [hab] at hc
              refine ⟨k, rfl, ?_⟩
              simpa [optIntTruthy] using hc.2
          have happ : applyStatus adId status ab now a =
              { a with status := status, approved_by := ab,
                       approved_at := some now } := by
            simp [applyStatus, hid, hc.1, hc.2]
          refine ⟨a, ha, ?_⟩
          rw [happ]
          refine ⟨rfl, rfl, rfl, rfl, rfl, rfl, rfl, rfl,
            fun hne => absurd hid hne, fun _ => rfl,
            Or.inl ⟨hc.1, k, hk, hk0⟩, ?_⟩
          intro hr
          rw [hr] at hc
          exact absurd hc.1 (by decide)
        · have happ : applyStatus adId status ab now a =
              { a with status := status } := by
            simp [applyStatus, hid, hc]
          refine ⟨a, ha, ?_⟩
          rw [happ]
          exact ⟨rfl, rfl, rfl, rfl, rfl, rfl, rfl, rfl,
            fun hne => absurd hid hne, fun _ => rfl,
            Or.inr ⟨rfl, rfl⟩, fun _ => ⟨rfl, rfl⟩⟩
      · have happ : applyStatus adId status ab now a = a := by
          simp [applyStatus, hid]
        refine ⟨a, ha, ?_⟩
        rw [happ]
        exact ⟨rfl, rfl, rfl, rfl, rfl, rfl, rfl, rfl,
          fun _ => rfl, fun hid2 => absurd hid2 hid,
          Or.inr ⟨rfl, rfl⟩, fun _ => ⟨rfl, rfl⟩⟩

/-- C10 witness: rejecting a pending ad (with an approver argument
supplied) changes only the status; the approval fields stay null. -/
theorem C10_witness :
    mkAd 1 2 "rejected" 0 ∈
      (update_ad_status { users := [], ads := [mkAd 1 2 "pending" 0], nextAdId := 2 }
        1 "rejected" (some 5) 7).1.ads ∧
    ∃ a ∈ ({ users := [], ads := [mkAd 1 2 "pending" 0], nextAdId := 2 } : DB).ads,
      (mkAd 1 2 "rejected" 0).id = a.id ∧
      (mkAd 1 2 "rejected" 0).user_id = a.user_id ∧
      (mkAd 1 2 "rejected" 0).title = a.title ∧
      (mkAd 1 2 "rejected" 0).description = a.description ∧
      (mkAd 1 2 "rejected" 0).category = a.category ∧
      (mkAd 1 2 "rejected" 0).contact = a.contact ∧
      (mkAd 1 2 "rejected" 0).created_at = a.created_at ∧
      (mkAd 1 2 "rejected" 0).expires_at = a.expires_at ∧
      (a.id ≠ 1 → mkAd 1 2 "rejected" 0 = a) ∧
      (a.id = 1 → (mkAd 1 2 "rejected" 0).status = "rejected") ∧
      ((("rejected" : String) = "approved" ∧ ∃ k, (some 5 : Option Nat) = some k ∧ k ≠ 0) ∨
        ((mkAd 1 2 "rejected" 0).approved_by = a.approved_by ∧
         (mkAd 1 2 "rejected" 0).approved_at = a.approved_at)) ∧
      (("rejected" : String) = "rejected" →
        (mkAd 1 2 "rejected" 0).approved_by = a.approved_by ∧
        (mkAd 1 2 "rejected" 0).approved_at = a.approved_at) :=
  ⟨by decide,
   C10_frame { users := [], ads := [mkAd 1 2 "pending" 0], nextAdId := 2 }
     1 "rejected" (some 5) 7 (mkAd 1 2 "rejected" 0) (by decide)⟩

/-! ### C8: demotion rules -/

/-- C8 (amended): a superadmin target is never demoted, whatever the
caller role; when the caller is not a superadmin the operation is
refused with no state change; when the caller is a superadmin and the
target exists with any role other than `superadmin` — including a
target whose role is already `user`, not only `admin` — the operation
succeeds and sets the target role to `user`. -/
theorem C8_demote_amended (db : DB) (caller target : Nat) :
    (is_superadmin db caller = false →
      handle_remove_admin db caller target = (db, [Effect.alertNoRights])) ∧
    (∀ u, get_user db target = some u → u.role = "superadmin" →
      (handle_remove_admin db caller target).1 = db) ∧
    (is_superadmin db caller = true → get_user db target = none →
      handle_remove_admin db caller target = (db, [Effect.alertNotFound])) ∧
    (∀ u, is_superadmin db caller = true → get_user db target = some u →
      u.role ≠ "superadmin" →
      handle_remove_admin db caller target =
        ({ db with users := db.users.map (applyRole target "user") },
         [Effect.answerSuccess, Effect.notifyTarget target])) := by
  refine ⟨?_, ?_, ?_, ?_⟩
  · intro h
    simp [handle_remove_admin, h]
  · intro u hu hr
    cases hs : is_superadmin db caller with
    | false => simp [handle_remove_admin, hs]
    | true => simp [handle_remove_admin, hs, hu, hr]
  · intro hs hn
    simp [handle_remove_admin, hs, hn]
  · intro u hs hu hr
    simp [handle_remove_admin, hs, hu, hr, update_user_role]

/-- C8 witness: a superadmin demoting an existing admin gets the
success path and the target role becomes `user`. -/
theorem C8_witness :
    is_superadmin { users := [superS, adminA], ads := [], nextAdId := 1 } 3 = true ∧
    handle_remove_admin { users := [superS, adminA], ads := [], nextAdId := 1 } 3 1 =
      ({ ({ users := [superS, adminA], ads := [], nextAdId := 1 } : DB) with
          users := ({ users := [superS, adminA], ads := [], nextAdId := 1 } : DB).users.map
            (applyRole 1 "user") },
       [Effect.answerSuccess, Effect.notifyTarget 1]) :=
  ⟨by decide,
   (C8_demote_amended { users := [superS, adminA], ads := [], nextAdId := 1 } 3 1).2.2.2
     adminA (by decide) (by decide) (by decide)⟩

/-! ### C4: role gating of the moderation operations -/

/-- A caller who fails the admin check also fails the superadmin
check. -/
theorem not_admin_not_superadmin (db : DB) (uid : Nat)
    (h : is_admin db uid = false) : is_superadmin db uid = false := by
  unfold is_admin at h
  unfold is_superadmin
  cases hg : get_user db uid with
  | none => rfl
  | some u =>
      rw [hg] at h
      simp only [decide_eq_false_iff_not] at h
      simp only [decide_eq_false_iff_not]
      exact fun hh => h (Or.inr hh)

/-- C4 (amended): for a caller whose role is neither `admin` nor
`superadmin`, the approve, reject, edit, delete-start, demote,
promote-start and broadcast-start operations all refuse before any
mutation and leave the store unchanged (the callback entries answer
with an authorization alert; the edit text step refuses silently);
the delete confirmation step, however, performs no role check at all:
for any caller it deletes the referenced listing when it exists. -/
theorem C4_role_check_amended (db : DB) (caller adId target now : Nat)
    (e : Option Nat) (text : String) (hA : is_admin db caller = false) :
    approve_ad_callback db caller adId now = (db, [Effect.alertNoRights]) ∧
    reject_ad_callback db caller adId now = (db, [Effect.alertNoRights]) ∧
    process_edit_title db caller e text = (db, [], false) ∧
    handle_delete_ad db caller adId = (db, [Effect.alertNoRights]) ∧
    handle_remove_admin db caller target = (db, [Effect.alertNoRights]) ∧
    handle_add_admin db caller = (db, [Effect.alertNoRights]) ∧
    handle_broadcast_start db caller = (db, [Effect.alertNoRights]) ∧
    ((get_ad db adId).isSome = true →
      (handle_confirm_delete db caller adId).1.ads =
        db.ads.filter (fun a => a.id ≠ adId)) := by
  have hS := not_admin_not_superadmin db caller hA
  refine ⟨?_, ?_, ?_, ?_, ?_, ?_, ?_, ?_⟩
  · simp [approve_ad_callback, hA]
  · simp [reject_ad_callback, hA]
  · simp [process_edit_title, hA]
  · simp [handle_delete_ad, hA]
  · simp [handle_remove_admin, hS]
  · simp [handle_add_admin, hS]
  · simp [handle_broadcast_start, hS]
  · intro hsome
    cases hga : get_ad db adId with
    | none => rw [hga] at hsome; cases hsome
    | some ad => simp [handle_confirm_delete, delete_ad, hga]

/-- C4 witness: a plain user triggering the approve callback gets the
authorization alert and the store is untouched. -/
theorem C4_witness :
    is_admin { users := [plainP], ads := [mkAd 1 2 "pending" 0], nextAdId := 2 } 2 = false ∧
    approve_ad_callback
        { users := [plainP], ads := [mkAd 1 2 "pending" 0], nextAdId := 2 } 2 1 0 =
      ({ users := [plainP], ads := [mkAd 1 2 "pending" 0], nextAdId := 2 },
       [Effect.alertNoRights]) :=
  ⟨by decide,
   (C4_role_check_amended
      { users := [plainP], ads := [mkAd 1 2 "pending" 0], nextAdId := 2 }
      2 1 0 0 none "" (by decide)).1⟩

/-! ### C1: status transitions over all operations -/

/-- Any member of a table rewritten by `applyStatus` corresponds to an
original row with the same id whose status either was kept or was set
to the new status. -/
theorem mem_map_applyStatus {ads : List AdRec} {a' : AdRec} {adId : Nat}
    {st : String} {ab : Option Nat} {now : Nat}
    (h : a' ∈ ads.map (applyStatus adId st ab now)) :
    ∃ a ∈ ads, a.id = a'.id ∧ (a'.status = a.status ∨ a'.status = st) := by
  simp only [List.mem_map] at h
  obtain ⟨a, ha, rfl⟩ := h
  refine ⟨a, ha, ?_, ?_⟩
  · by_cases hid : a.id = adId
    · by_cases hc : st = "approved" ∧ optIntTruthy ab = true
      · simp [applyStatus, hid, hc.1, hc.2]
      · simp [applyStatus, hid, hc]
    · simp [applyStatus, hid]
  · by_cases hid : a.id = adId
    · by_cases hc : st = "approved" ∧ optIntTruthy ab = true
      · right; simp [applyStatus, hid, hc.1, hc.2]
      · right; simp [applyStatus, hid, hc]
    · left; simp [applyStatus, hid]

/-- `applyEdit` never changes the id or the status of a row. -/
theorem applyEdit_fields (adId : Nat) (t d c : Option String) (a : AdRec) :
    (applyEdit adId t d c a).id = a.id ∧ (applyEdit adId t d c a).status = a.status := by
  unfold applyEdit
  by_cases hid : a.id = adId
  · rw [if_pos hid]
    rcases t with _ | tv <;> rcases d with _ | dv <;> rcases c with _ | cv <;>
      dsimp only <;>
      first
        | exact ⟨rfl, rfl⟩
        | (split_ifs <;> exact ⟨rfl, rfl⟩)
  · rw [if_neg hid]
    exact ⟨rfl, rfl⟩

/-- `update_user_role` leaves the ads table unchanged. -/
theorem update_user_role_ads (db : DB) (tg : Nat) (r : String) :
    (update_user_role db tg r).1.ads = db.ads := by
  unfold update_user_role
  split <;> rfl

/-- The approve callback either leaves the store unchanged or rewrites
the ads table with `applyStatus _ "approved"`. -/
theorem approve_db_shape (db : DB) (c i n : Nat) :
    (approve_ad_callback db c i n).1 = db ∨
    (approve_ad_callback db c i n).1.ads =
      db.ads.map (applyStatus i "approved" none n) := by
  unfold approve_ad_callback
  split
  · exact Or.inl rfl
  · split
    · exact Or.inl rfl
    · next ad heq =>
        right
        simp only [update_ad_status, heq]

/-- The reject callback either leaves the store unchanged or rewrites
the ads table with `applyStatus _ "rejected"`. -/
theorem reject_db_shape (db : DB) (c i n : Nat) :
    (reject_ad_callback db c i n).1 = db ∨
    (reject_ad_callback db c i n).1.ads =
      db.ads.map (applyStatus i "rejected" none n) := by
  unfold reject_ad_callback
  split
  · exact Or.inl rfl
  · split
    · exact Or.inl rfl
    · next ad heq =>
        right
        simp only [update_ad_status, heq]

/-- The edit-title step either leaves the store unchanged or rewrites
the ads table with an `applyEdit` that only touches the title. -/
theorem edit_db_shape (db : DB) (c : Nat) (e : Option Nat) (t : String) :
    (process_edit_title db c e t).1 = db ∨
    ∃ adId v, (process_edit_title db c e t).1.ads =
      db.ads.map (applyEdit adId (some v) none none) := by
  unfold process_edit_title
  split
  · exact Or.inl rfl
  · split
    · exact Or.inl rfl
    · next adId =>
        dsimp only
        split
        · exact Or.inl rfl
        · cases heq : get_ad db adId with
          | none =>
              have hup : update_ad db adId (some t.trim) none none = (db, false) := by
                unfold update_ad
                rw [heq]
              left
              simp [hup]
          | some ad =>
              have hup : update_ad db adId (some t.trim) none none =
                  ({ db with ads := db.ads.map (applyEdit adId (some t.trim) none none) },
                   true) := by
                unfold update_ad
                rw [heq]
              right
              refine ⟨adId, t.trim, ?_⟩
              simp only [hup]
              split
              · split <;> rfl
              · rfl

/-- The delete-start step never changes the store. -/
theorem deleteStart_db_shape (db : DB) (c a : Nat) :
    (handle_delete_ad db c a).1 = db := by
  unfold handle_delete_ad
  split
  · rfl
  · split <;> rfl

/-- The delete-confirmation step either leaves the store unchanged or
filters the deleted id out of the ads table. -/
theorem confirmDelete_db_shape (db : DB) (c a : Nat) :
    (handle_confirm_delete db c a).1 = db ∨
    (handle_confirm_delete db c a).1.ads = db.ads.filter (fun x => x.id ≠ a) := by
  unfold handle_confirm_delete
  split
  · exact Or.inl rfl
  · next ad heq =>
      right
      simp [delete_ad, heq]

/-- The promote step leaves the ads table unchanged. -/
theorem promote_ads_shape (db : DB) (c : Nat) (t : String) :
    (process_new_admin_id db c t).1.ads = db.ads := by
  unfold process_new_admin_id
  split
  · rfl
  · split
    · rfl
    · split
      · rfl
      · dsimp only
        split <;> simp [update_user_role_ads]

/-- The demote step leaves the ads table unchanged. -/
theorem demote_ads_shape (db : DB) (c t : Nat) :
    (handle_remove_admin db c t).1.ads = db.ads := by
  unfold handle_remove_admin
  split
  · rfl
  · split
    · rfl
    · split
      · rfl
      · dsimp only
        split <;> simp [update_user_role_ads]

/-- The ads table after a submission is the old table plus the fresh
`pending` row. -/
theorem create_ads_shape (db : DB) (u : Nat) (t d cat con st : String) (n : Nat) :
    (create_ad db u t d cat con st n).1.ads =
      db.ads ++ [{ id := db.nextAdId, user_id := u, title := t, description := d,
                   category := cat, contact := con, status := st, created_at := n,
                   expires_at := n + adExpirySeconds,
                   approved_by := none, approved_at := none }] := rfl

/-- The sweep filters the ads table. -/
theorem sweep_ads_shape (db : DB) (n : Nat) :
    (cleanup_old_ads db n).1.ads =
      db.ads.filter (fun a => ¬ a.expires_at < n - adExpirySeconds) := rfl

/-- C1 (amended): every listing starts as `pending` at creation, and
the only status values any operation ever writes are `approved` (by
the admin approve callback) and `rejected` (by the admin reject
callback); however neither callback checks the current status, so they
can also re-status a listing that is already in a terminal state
(approved to rejected and rejected to approved are both reachable). -/
theorem C1_status_transitions_amended (db : DB) (op : Op) (a' : AdRec)
    (h : a' ∈ (step db op).ads) :
    (∃ a ∈ db.ads, a.id = a'.id ∧
      (a'.status = a.status ∨
        (a'.status = "approved" ∧ ∃ c i n, op = Op.approve c i n) ∨
        (a'.status = "rejected" ∧ ∃ c i n, op = Op.reject c i n))) ∨
    (a'.status = "pending" ∧
      ∃ u t d cat con n, op = Op.submitAd u t d cat con n) := by
  cases op with
  | approve c i n =>
      simp only [step] at h
      rcases approve_db_shape db c i n with hd | hads
      · rw [hd] at h
        exact Or.inl ⟨a', h, rfl, Or.inl rfl⟩
      · rw [hads] at h
        obtain ⟨a, ha, haid, hst⟩ := mem_map_applyStatus h
        exact Or.inl ⟨a, ha, haid, hst.elim Or.inl
          (fun he => Or.inr (Or.inl ⟨he, c, i, n, rfl⟩))⟩
  | reject c i n =>
      simp only [step] at h
      rcases reject_db_shape db c i n with hd | hads
      · rw [hd] at h
        exact Or.inl ⟨a', h, rfl, Or.inl rfl⟩
      · rw [hads] at h
        obtain ⟨a, ha, haid, hst⟩ := mem_map_applyStatus h
        exact Or.inl ⟨a, ha, haid, hst.elim Or.inl
          (fun he => Or.inr (Or.inr ⟨he, c, i, n, rfl⟩))⟩
  | editTitle c e t =>
      simp only [step] at h
      rcases edit_db_shape db c e t with hd | ⟨adId, v, hads⟩
      · rw [hd] at h
        exact Or.inl ⟨a', h, rfl, Or.inl rfl⟩
      · rw [hads] at h
        simp only [List.mem_map] at h
        obtain ⟨a, ha, rfl⟩ := h
        have hf := applyEdit_fields adId (some v) none none a
        exact Or.inl ⟨a, ha, hf.1.symm, Or.inl hf.2⟩
  | deleteStart c a =>
      simp only [step] at h
      rw [deleteStart_db_shape db c a] at h
      exact Or.inl ⟨a', h, rfl, Or.inl rfl⟩
  | confirmDelete c a =>
      simp only [step] at h
      rcases confirmDelete_db_shape db c a with hd | hads
      · rw [hd] at h
        exact Or.inl ⟨a', h, rfl, Or.inl rfl⟩
      · rw [hads] at h
        exact Or.inl ⟨a', (List.mem_filter.mp h).1, rfl, Or.inl rfl⟩
  | promote c t =>
      simp only [step] at h
      rw [promote_ads_shape db c t] at h
      exact Or.inl ⟨a', h, rfl, Or.inl rfl⟩
  | demote c t =>
      simp only [step] at h
      rw [demote_ads_shape db c t] at h
      exact Or.inl ⟨a', h, rfl, Or.inl rfl⟩
  | submitAd u t d cat con n =>
      simp only [step] at h
      rw [create_ads_shape db u t d cat con "pending" n] at h
      rcases List.mem_append.mp h with h1 | h2
      · exact Or.inl ⟨a', h1, rfl, Or.inl rfl⟩
      · have he := List.mem_singleton.mp h2
        subst he
        exact Or.inr ⟨rfl, u, t, d, cat, con, n, rfl⟩
  | sweep n =>
      simp only [step] at h
      rw [sweep_ads_shape db n] at h
      exact Or.inl ⟨a', (List.mem_filter.mp h).1, rfl, Or.inl rfl⟩

/-- C1 witness: a non-admin delete-start leaves the store unchanged, so
the surviving ad satisfies the transition disjunction. -/
theorem C1_witness :
    mkAd 1 2 "pending" 0 ∈
      (step { users := [plainP], ads := [mkAd 1 2 "pending" 0], nextAdId := 2 }
        (Op.deleteStart 2 1)).ads ∧
    ((∃ a ∈ ({ users := [plainP], ads := [mkAd 1 2 "pending" 0], nextAdId := 2 } : DB).ads,
        a.id = (mkAd 1 2 "pending" 0).id ∧
        ((mkAd 1 2 "pending" 0).status = a.status ∨
          ((mkAd 1 2 "pending" 0).status = "approved" ∧
            ∃ c i n, Op.deleteStart 2 1 = Op.approve c i n) ∨
          ((mkAd 1 2 "pending" 0).status = "rejected" ∧
            ∃ c i n, Op.deleteStart 2 1 = Op.reject c i n))) ∨
      ((mkAd 1 2 "pending" 0).status = "pending" ∧
        ∃ u t d cat con n, Op.deleteStart 2 1 = Op.submitAd u t d cat con n)) :=
  ⟨by decide,
   C1_status_transitions_amended
     { users := [plainP], ads := [mkAd 1 2 "pending" 0], nextAdId := 2 }
     (Op.deleteStart 2 1) (mkAd 1 2 "pending" 0) (by decide)⟩
